import Mathlib

/- Shallow embedding of the IOT_APP repository:
   - src/IOT/ESP32_Environment_Monitoring.c : the embedded sense-decide-act-report loop
   - src/backend/server.js : the express ingestion endpoints

   Sensor floats (non-NaN values) are modelled as rationals; the C code only
   compares them against the exactly representable thresholds 30.0 and 70.0,
   so IEEE comparison coincides with rational comparison.  NaN is modelled by
   `Option`: `none` stands for a not-a-number reading.  `unsigned long`
   subtraction in the telemetry gate is modelled modulo 2^32. -/

-- ============ THRESHOLD VALUES (lines 26-28) ============
def TEMP_HIGH : ℚ := 30
def HUMIDITY_HIGH : ℚ := 70
def LIGHT_LOW : ℤ := 500

-- TIMING CONFIGURATION (line 31)
def SENSOR_READ_INTERVAL : ℕ := 2000

/-- Electrical level of a GPIO output pin. -/
inductive Level
  | low
  | high
deriving DecidableEq, Repr

/-- Output pins of the board (lines 17-23): the two relays, the buzzer and
the three indicator LEDs. -/
structure PinState where
  fanRelayPin : Level
  lightRelayPin : Level
  buzzerPin : Level
  fanLedPin : Level
  lightLedPin : Level
  alarmLedPin : Level
deriving DecidableEq, Repr

/-- Pin levels after `setup()` (lines 160-179): relays HIGH, buzzer LOW,
all indicator LEDs LOW. -/
def pinInit : PinState :=
  { fanRelayPin := Level.high
    lightRelayPin := Level.high
    buzzerPin := Level.low
    fanLedPin := Level.low
    lightLedPin := Level.low
    alarmLedPin := Level.low }

/-- The six boolean status variables computed each tick of `loop()`
(lines 201-206), i.e. the spec's ActuatorState. -/
structure ActuatorState where
  fan : Bool
  fanIndicator : Bool
  light : Bool
  lightIndicator : Bool
  alarmIndicator : Bool
  buzzer : Bool
deriving DecidableEq, Repr

-- ============ LED CONTROL FUNCTIONS (lines 38-51) ============

/-- `setFanLED` (lines 38-41): `digitalWrite(FAN_LED_PIN, state ? HIGH : LOW)`. -/
def setFanLED (state : Bool) (p : PinState) : PinState :=
  { p with fanLedPin := if state then Level.high else Level.low }

/-- `setLightLED` (lines 43-46): `digitalWrite(LIGHT_LED_PIN, state ? HIGH : LOW)`. -/
def setLightLED (state : Bool) (p : PinState) : PinState :=
  { p with lightLedPin := if state then Level.high else Level.low }

/-- `setAlarmLED` (lines 48-51): `digitalWrite(ALARM_LED_PIN, state ? HIGH : LOW)`. -/
def setAlarmLED (state : Bool) (p : PinState) : PinState :=
  { p with alarmLedPin := if state then Level.high else Level.low }

-- ============ RELAY & ACTUATOR CONTROL FUNCTIONS (lines 54-76) ============
-- Each returns the new pin state and the serial log emitted by the call,
-- as (label, value) pairs: `Serial.print("FAN: "); Serial.println(state ? "ON" : "OFF")`
-- produces the single completed log line ("FAN", state).

/-- `controlFan` (lines 54-60): relay driven inverted (`state ? LOW : HIGH`),
then the fan LED, then one log line. -/
def controlFan (state : Bool) (p : PinState) : PinState × List (String × Bool) :=
  let p1 := { p with fanRelayPin := if state then Level.low else Level.high }
  let p2 := setFanLED state p1
  (p2, [("FAN", state)])

/-- `controlLight` (lines 62-68): relay driven inverted (`state ? LOW : HIGH`),
then the light LED, then one log line. -/
def controlLight (state : Bool) (p : PinState) : PinState × List (String × Bool) :=
  let p1 := { p with lightRelayPin := if state then Level.low else Level.high }
  let p2 := setLightLED state p1
  (p2, [("LIGHT", state)])

/-- `controlBuzzer` (lines 70-76): buzzer driven non-inverted
(`state ? HIGH : LOW`), then the alarm LED, then one log line. -/
def controlBuzzer (state : Bool) (p : PinState) : PinState × List (String × Bool) :=
  let p1 := { p with buzzerPin := if state then Level.high else Level.low }
  let p2 := setAlarmLED state p1
  (p2, [("BUZZER", state)])

/-- The spec's `ActuatorDriver.apply`: the sequence of actuator calls the loop
performs for a computed state — `controlFan`, `controlLight`, `controlBuzzer`
(lines 229-273), each with the corresponding status boolean. -/
def applyActuators (s : ActuatorState) (p : PinState) : PinState × List (String × Bool) :=
  let f := controlFan s.fan p
  let l := controlLight s.light f.1
  let b := controlBuzzer s.buzzer l.1
  (b.1, f.2 ++ l.2 ++ b.2)

-- ============ SENSOR READING (lines 79-95) ============

/-- A raw DHT22 + LDR sample: `none` models a not-a-number float. -/
structure RawReading where
  temperature : Option ℚ
  humidity : Option ℚ
  lightLevel : ℤ
deriving DecidableEq, Repr

/-- `readDHT22` (lines 79-90) returns false iff
`isnan(humidity) || isnan(temperature)`. -/
def readDHT22ok (r : RawReading) : Bool :=
  !(r.humidity.isNone || r.temperature.isNone)

-- ============ CONTROL LOGIC (lines 229-273) ============
-- Each decision returns the pair of status booleans set in the branch taken;
-- all six status variables are initialised to false (lines 201-206).

/-- Fan control (lines 230-244): the pair (fanStatus, fanLedStatus).
The final branch — temperature neither `>= TEMP_HIGH` nor `< TEMP_HIGH` —
makes no assignment, leaving the initial false values. -/
def fanDecision (temperature : ℚ) : Bool × Bool :=
  if TEMP_HIGH ≤ temperature then (true, true)
  else if temperature < TEMP_HIGH then (false, false)
  else (false, false)

/-- Light control (lines 247-258): the pair (lightStatus, lightLedStatus). -/
def lightDecision (lightLevel : ℤ) : Bool × Bool :=
  if lightLevel < LIGHT_LOW then (true, true) else (false, false)

/-- Alarm control (lines 261-273): the pair (buzzerStatus, alarmLedStatus). -/
def alarmDecision (temperature humidity : ℚ) (lightLevel : ℤ) : Bool × Bool :=
  if (TEMP_HIGH ≤ temperature ∨ HUMIDITY_HIGH ≤ humidity) ∧ lightLevel < LIGHT_LOW
  then (true, true) else (false, false)

/-- The spec's `ThresholdController.decide`: the six status booleans as
computed by the control logic of `loop()` (lines 229-273). -/
def loopDecide (temperature humidity : ℚ) (lightLevel : ℤ) : ActuatorState :=
  { fan := (fanDecision temperature).1
    fanIndicator := (fanDecision temperature).2
    light := (lightDecision lightLevel).1
    lightIndicator := (lightDecision lightLevel).2
    alarmIndicator := (alarmDecision temperature humidity lightLevel).2
    buzzer := (alarmDecision temperature humidity lightLevel).1 }

-- ============ SEND DATA TO SERVER (lines 278-306) ============

/-- `unsigned long` is 32 bits on the ESP32. -/
def UINT32_MOD : ℕ := 4294967296

/-- Wrapping subtraction of `unsigned long` values:
`currentTime - lastSendTime` in line 279 is computed modulo 2^32. -/
def usub (a b : ℕ) : ℕ :=
  (a % UINT32_MOD + (UINT32_MOD - b % UINT32_MOD)) % UINT32_MOD

/-- The state surviving between ticks: the spec's UploadCursor.
`lastSendTime` is a global in the sketch; its declaration lives in a tab
not present under src, but it is read and written only by lines 279-305. -/
structure LoopState where
  lastSendTime : ℕ
deriving DecidableEq, Repr

/-- The telemetry gate of `loop()` (lines 278-306), the spec's
`TelemetryUploader.maybeSend`: a `sendDataToServer` attempt happens iff
`currentTime - lastSendTime >= DATA_SEND_INTERVAL`, and in that case — and
only that case — `lastSendTime = currentTime` (line 305), regardless of
`sendSuccess`.  `DATA_SEND_INTERVAL` is configuration external to src, so it
is a parameter.  Returns (new state, whether an attempt was made). -/
def maybeSend (interval now : ℕ) (st : LoopState) : LoopState × Bool :=
  if interval ≤ usub now st.lastSendTime then ({ lastSendTime := now }, true)
  else (st, false)

/-- What the LCD shows during a tick (lines 217, 294-303, 314-318),
abstracted from the character-level rendering. -/
inductive LcdMsg
  | reading (temperature humidity : ℚ) (lightLevel : ℤ)
  | sendMark (ok : Bool)
  | sensorError
  | noDataSent
deriving DecidableEq, Repr

/-- Observable outcome of one `loop()` iteration. -/
structure TickOutcome where
  state : LoopState
  pins : PinState
  actuatorLog : List (String × Bool)
  lcd : List LcdMsg
  uploadAttempted : Bool
deriving DecidableEq, Repr

/-- One iteration of `loop()` (lines 196-322).  `now` is the value
`millis()` returns in line 278, `sendSuccess` the result of
`sendDataToServer` (whose body lives in a tab not present under src; only
its success flag matters here).  On a failed DHT22 read (lines 308-319) the
branch shows the error text and does nothing else. -/
def tick (interval : ℕ) (raw : RawReading) (now : ℕ) (sendSuccess : Bool)
    (st : LoopState) (p : PinState) : TickOutcome :=
  if readDHT22ok raw then
    let temperature := raw.temperature.getD 0
    let humidity := raw.humidity.getD 0
    let lightLevel := raw.lightLevel
    -- Fan control (lines 230-244): controlFan is called in the branch taken
    let fanCall :=
      if TEMP_HIGH ≤ temperature then controlFan true p
      else if temperature < TEMP_HIGH then controlFan false p
      else (p, [])
    -- Light control (lines 247-258)
    let lightCall :=
      if lightLevel < LIGHT_LOW then controlLight true fanCall.1
      else controlLight false fanCall.1
    -- Alarm control (lines 261-273)
    let buzzCall :=
      if (TEMP_HIGH ≤ temperature ∨ HUMIDITY_HIGH ≤ humidity) ∧ lightLevel < LIGHT_LOW
      then controlBuzzer true lightCall.1
      else controlBuzzer false lightCall.1
    -- Send data to server (lines 278-306)
    let send := maybeSend interval now st
    { state := send.1
      pins := buzzCall.1
      actuatorLog := fanCall.2 ++ lightCall.2 ++ buzzCall.2
      lcd := LcdMsg.reading temperature humidity lightLevel ::
        (if send.2 then [LcdMsg.sendMark sendSuccess] else [])
      uploadAttempted := send.2 }
  else
    { state := st
      pins := p
      actuatorLog := []
      lcd := [LcdMsg.sensorError, LcdMsg.noDataSent]
      uploadAttempted := false }

/-- Iterated `loop()`: each list entry is one tick's inputs
(raw sample, millis value, sendDataToServer result). -/
def runTicks (interval : ℕ) : List (RawReading × ℕ × Bool) → LoopState → PinState → LoopState × PinState
  | [], st, p => (st, p)
  | (raw, now, succ) :: rest, st, p =>
      let o := tick interval raw now succ st p
      runTicks interval rest o.state o.pins

-- ============ src/backend/server.js ============
-- JSON objects are modelled as association lists built left to right, as a
-- JS object literal is: a later entry with the same key overrides an
-- earlier one, so field lookup takes the LAST binding of a key.

/-- Value of key `k` after folding the entries of `o` left to right over an
initial binding `acc` — the semantics of JS object-literal construction. -/
def lookupFrom (acc : Option String) (o : List (String × String)) (k : String) : Option String :=
  o.foldl (fun a kv => if kv.1 = k then some kv.2 else a) acc

/-- Value of key `k` in object `o` (last binding wins). -/
def lookupLast (o : List (String × String)) (k : String) : Option String :=
  lookupFrom none o k

/-- Left-biased choice on optional values, used to relate `lookupFrom` to
`lookupLast`. -/
def optOr : Option String → Option String → Option String
  | some v, _ => some v
  | none, b => b

/-- The object built in lines 21-25 of server.js:
`const info = { id: v4(), ...req.body, created_at: new Date().toISOString() }`.
`freshId` is the `v4()` value, `createdAt` the serialized server time. -/
def buildInfo (freshId : String) (body : List (String × String)) (createdAt : String) :
    List (String × String) :=
  ("id", freshId) :: (body ++ [("created_at", createdAt)])

/-- Outcome of an express handler invocation: an HTTP response, or an
uncaught exception escaping the handler (no response is sent). -/
inductive HandlerResult
  | response (status : ℕ) (body : List (String × String))
  | crashed (msg : String)
deriving DecidableEq, Repr

/-- `POST /sensor-data` (server.js lines 20-38).  `insert` models
`supabase.from("data").insert(info).select()`: `Except.error e` is a result
with a non-null `error` whose message is `e` (then thrown, line 30),
`Except.ok d` a success echoing data `d`.  The catch clause binds the thrown
value as `err` and its body reads `err.message`, modelled by a lookup of the
name "err" in the catch scope. -/
def postSensorDataHandler (freshId : String) (body : List (String × String))
    (createdAt : String) (insert : List (String × String) → Except String String) :
    HandlerResult :=
  let info := buildInfo freshId body createdAt
  match insert info with
  | Except.ok d =>
      HandlerResult.response 200
        [("success", "true"), ("message", "Successfully Inserted data"), ("data", d)]
  | Except.error e =>
      match lookupLast [("err", e)] "err" with
      | some msg => HandlerResult.response 500 [("error", msg)]
      | none => HandlerResult.crashed "ReferenceError: err is not defined"

/-- `GET /data` (server.js lines 40-51).  `query` models
`supabase.from("data").select("*")`.  The catch clause binds the thrown
value as `error` (line 48), but its body reads `err.message` (line 49): the
lookup of "err" in a scope binding only "error" fails, so evaluating the
response body raises a ReferenceError and no response is produced. -/
def getDataHandler (query : Except String String) : HandlerResult :=
  match query with
  | Except.ok d =>
      HandlerResult.response 200
        [("success", "true"), ("message", "Successfully Fetched data"), ("data", d)]
  | Except.error e =>
      match lookupLast [("error", e)] "err" with
      | some msg => HandlerResult.response 500 [("error", msg)]
      | none => HandlerResult.crashed "ReferenceError: err is not defined"

-- ============ THEOREMS ============

/-- Wrapping subtraction agrees with plain subtraction while the clock has
not wrapped past the cursor. -/
theorem usub_eq_sub (a b : ℕ) (h1 : b ≤ a) (h2 : a - b < UINT32_MOD) :
    usub a b = a - b := by
  unfold usub UINT32_MOD at *
  omega

/-- Folding from an accumulator returns the object's last binding when one
exists and the accumulator otherwise. -/
theorem lookupFrom_optOr (o : List (String × String)) (acc : Option String) (k : String) :
    lookupFrom acc o k = optOr (lookupLast o k) acc := by
  induction o generalizing acc with
  | nil => cases acc <;> rfl
  | cons kv rest ih =>
      show lookupFrom (if kv.1 = k then some kv.2 else acc) rest k = _
      rw [ih]
      show _ = optOr (lookupFrom (if kv.1 = k then some kv.2 else none) rest k) acc
      rw [ih]
      cases hl : lookupLast rest k with
      | some v => rfl
      | none => split_ifs <;> rfl

/-- C1: for every valid sensor reading the alarm indicator and the buzzer
are both on iff (temperature >= 30.0 or humidity >= 70.0) and
lightLevel < 500, across the full input domain including boundaries. -/
theorem alarm_iff_thresholds (temperature humidity : ℚ) (lightLevel : ℤ) :
    ((loopDecide temperature humidity lightLevel).alarmIndicator = true ∧
        (loopDecide temperature humidity lightLevel).buzzer = true ↔
      (TEMP_HIGH ≤ temperature ∨ HUMIDITY_HIGH ≤ humidity) ∧ lightLevel < LIGHT_LOW) ∧
    (loopDecide temperature humidity lightLevel).alarmIndicator =
      (loopDecide temperature humidity lightLevel).buzzer := by
  constructor
  · simp only [loopDecide, alarmDecision]
    split_ifs with h <;> simp [h]
  · simp only [loopDecide, alarmDecision]
    split_ifs <;> rfl

/-- C1 witness: at the exact boundary temperature = 30.0, humidity = 70.0,
lightLevel = 499, the alarm and buzzer are on. -/
theorem alarm_iff_thresholds_witness :
    (loopDecide 30 70 499).alarmIndicator = true ∧ (loopDecide 30 70 499).buzzer = true :=
  (alarm_iff_thresholds 30 70 499).1.mpr (by decide)

/-- C2: fan and fanIndicator are both true when temperature >= 30.0 and
both false when temperature < 30.0, and fan = fanIndicator always; rational
trichotomy leaves no unhandled case. -/
theorem fan_decision_spec (temperature humidity : ℚ) (lightLevel : ℤ) :
    (TEMP_HIGH ≤ temperature →
      (loopDecide temperature humidity lightLevel).fan = true ∧
        (loopDecide temperature humidity lightLevel).fanIndicator = true) ∧
    (temperature < TEMP_HIGH →
      (loopDecide temperature humidity lightLevel).fan = false ∧
        (loopDecide temperature humidity lightLevel).fanIndicator = false) ∧
    (loopDecide temperature humidity lightLevel).fan =
      (loopDecide temperature humidity lightLevel).fanIndicator := by
  rcases le_or_lt TEMP_HIGH temperature with h | h
  · simp [loopDecide, fanDecision, h, not_lt.mpr h]
  · simp [loopDecide, fanDecision, h, not_le.mpr h]

/-- C2 witness: at temperature 31.0 the fan and its indicator are on. -/
theorem fan_decision_spec_witness :
    (loopDecide 31 40 600).fan = true ∧ (loopDecide 31 40 600).fanIndicator = true :=
  (fan_decision_spec 31 40 600).1 (by decide)

/-- C3: light and lightIndicator are both true iff lightLevel < 500, and
both false otherwise. -/
theorem light_decision_spec (temperature humidity : ℚ) (lightLevel : ℤ) :
    ((loopDecide temperature humidity lightLevel).light = true ∧
        (loopDecide temperature humidity lightLevel).lightIndicator = true ↔
      lightLevel < LIGHT_LOW) ∧
    (loopDecide temperature humidity lightLevel).light =
      (loopDecide temperature humidity lightLevel).lightIndicator := by
  constructor
  · simp only [loopDecide, lightDecision]
    split_ifs with h <;> simp [h]
  · simp only [loopDecide, lightDecision]
    split_ifs <;> rfl

/-- C3 witness: at lightLevel 400 the light and its indicator are on. -/
theorem light_decision_spec_witness :
    (loopDecide 25 40 400).light = true ∧ (loopDecide 25 40 400).lightIndicator = true :=
  (light_decision_spec 25 40 400).1.mpr (by decide)

/-- C4: on a tick whose sensor read is invalid, the pins are untouched, no
actuator log line is emitted, no upload is attempted, the cursor is
unchanged, only the error text is presented, and the loop goes on to
process the remaining ticks. -/
theorem invalid_read_skips_everything (interval : ℕ) (raw : RawReading) (now : ℕ)
    (sendSuccess : Bool) (st : LoopState) (p : PinState)
    (h : readDHT22ok raw = false) :
    (tick interval raw now sendSuccess st p).pins = p ∧
    (tick interval raw now sendSuccess st p).actuatorLog = [] ∧
    (tick interval raw now sendSuccess st p).uploadAttempted = false ∧
    (tick interval raw now sendSuccess st p).state = st ∧
    (tick interval raw now sendSuccess st p).lcd = [LcdMsg.sensorError, LcdMsg.noDataSent] ∧
    ∀ rest, runTicks interval ((raw, now, sendSuccess) :: rest) st p =
      runTicks interval rest st p := by
  have ht : tick interval raw now sendSuccess st p =
      { state := st, pins := p, actuatorLog := [],
        lcd := [LcdMsg.sensorError, LcdMsg.noDataSent], uploadAttempted := false } := by
    simp [tick, h]
  refine ⟨by rw [ht], by rw [ht], by rw [ht], by rw [ht], by rw [ht], fun rest => ?_⟩
  simp [runTicks, ht]

/-- C4 witness: the spec's Scenario D (temperature NaN, humidity 50.0,
light 200) performs no upload attempt. -/
theorem invalid_read_skips_everything_witness :
    (tick 2000 { temperature := none, humidity := some 50, lightLevel := 200 }
        5000 true { lastSendTime := 0 } pinInit).uploadAttempted = false :=
  (invalid_read_skips_everything 2000
    { temperature := none, humidity := some 50, lightLevel := 200 }
    5000 true { lastSendTime := 0 } pinInit (by decide)).2.2.1

/-- C5 counterexample: with interval 2000, two send-gate evaluations 500 ms
apart (at 500 and 1000, cursor at 0) make zero attempts, not exactly one. -/
theorem maybeSend_two_calls_zero_attempts :
    (maybeSend 2000 500 { lastSendTime := 0 }).2 = false ∧
    (maybeSend 2000 1000 (maybeSend 2000 500 { lastSendTime := 0 }).1).2 = false ∧
    1000 - 500 < 2000 := by decide

/-- C5 amended: an attempt happens iff `now - lastSendTime >= interval`;
two gate evaluations less than the interval apart make AT MOST one attempt,
and exactly one when the interval has already elapsed at the first. -/
theorem maybeSend_at_most_one_attempt (interval t1 t2 : ℕ) (st : LoopState)
    (h0 : st.lastSendTime ≤ t1) (h1 : t1 ≤ t2)
    (h2 : t2 - st.lastSendTime < UINT32_MOD) (h3 : t2 - t1 < interval) :
    ((maybeSend interval t1 st).2 = true ↔ interval ≤ usub t1 st.lastSendTime) ∧
    (maybeSend interval t1 st).2.toNat +
      (maybeSend interval t2 (maybeSend interval t1 st).1).2.toNat ≤ 1 ∧
    (interval ≤ t1 - st.lastSendTime →
      (maybeSend interval t1 st).2.toNat +
        (maybeSend interval t2 (maybeSend interval t1 st).1).2.toNat = 1) := by
  have e1 : usub t1 st.lastSendTime = t1 - st.lastSendTime :=
    usub_eq_sub _ _ h0 (by omega)
  have e2 : usub t2 t1 = t2 - t1 := usub_eq_sub _ _ h1 (by omega)
  by_cases hd : interval ≤ usub t1 st.lastSendTime
  · have hnd : ¬ interval ≤ usub t2 t1 := by rw [e2]; omega
    simp [maybeSend, hd, hnd]
  · have hnd2 : ¬ interval ≤ t1 - st.lastSendTime := fun hc => hd (by rw [e1]; exact hc)
    simp [maybeSend, hd, hnd2]
    split_ifs <;> simp

/-- C5 amended witness: cursor 0, interval 2000, evaluations at 2500 and
3000 (500 ms apart, first one due): exactly one attempt. -/
theorem maybeSend_at_most_one_attempt_witness :
    (maybeSend 2000 2500 { lastSendTime := 0 }).2.toNat +
      (maybeSend 2000 3000 (maybeSend 2000 2500 { lastSendTime := 0 }).1).2.toNat = 1 :=
  (maybeSend_at_most_one_attempt 2000 2500 3000 { lastSendTime := 0 }
    (by decide) (by decide) (by decide) (by decide)).2.2 (by decide)

/-- C6: whenever a transmission is attempted the cursor advances to `now`
regardless of the send result; when no attempt happens the cursor is
unchanged; and the send result has no influence on the cursor or on whether
an attempt happens. -/
theorem lastSendTime_advancement (interval : ℕ) (raw : RawReading) (now : ℕ)
    (s1 s2 : Bool) (st : LoopState) (p : PinState) :
    ((tick interval raw now s1 st p).uploadAttempted = true →
      (tick interval raw now s1 st p).state.lastSendTime = now) ∧
    ((tick interval raw now s1 st p).uploadAttempted = false →
      (tick interval raw now s1 st p).state = st) ∧
    (tick interval raw now s1 st p).state = (tick interval raw now s2 st p).state ∧
    (tick interval raw now s1 st p).uploadAttempted =
      (tick interval raw now s2 st p).uploadAttempted := by
  unfold tick maybeSend
  split_ifs <;> simp

/-- C6 witness: a valid reading with the interval elapsed and a FAILED send
(sendSuccess = false) still advances the cursor to `now` = 5000. -/
theorem lastSendTime_advancement_witness :
    (tick 2000 { temperature := some 31, humidity := some 40, lightLevel := 600 }
        5000 false { lastSendTime := 0 } pinInit).state.lastSendTime = 5000 :=
  (lastSendTime_advancement 2000
    { temperature := some 31, humidity := some 40, lightLevel := 600 }
    5000 false true { lastSendTime := 0 } pinInit).1 (by decide)

/-- C7: the fan and light relays are written inverted (true -> LOW,
false -> HIGH), the buzzer and all indicator LEDs non-inverted
(true -> HIGH), and each actuator call emits exactly one log line carrying
the new boolean value. -/
theorem actuator_polarity_and_logging (b : Bool) (p : PinState) :
    (controlFan b p).1.fanRelayPin = (if b then Level.low else Level.high) ∧
    (controlFan b p).1.fanLedPin = (if b then Level.high else Level.low) ∧
    (controlFan b p).2 = [("FAN", b)] ∧
    (controlLight b p).1.lightRelayPin = (if b then Level.low else Level.high) ∧
    (controlLight b p).1.lightLedPin = (if b then Level.high else Level.low) ∧
    (controlLight b p).2 = [("LIGHT", b)] ∧
    (controlBuzzer b p).1.buzzerPin = (if b then Level.high else Level.low) ∧
    (controlBuzzer b p).1.alarmLedPin = (if b then Level.high else Level.low) ∧
    (controlBuzzer b p).2 = [("BUZZER", b)] := by
  cases b <;>
    simp [controlFan, controlLight, controlBuzzer, setFanLED, setLightLED, setAlarmLED]

/-- C8: applying the same ActuatorState twice in a row is idempotent — the
second application produces the identical observable outcome (same pin
levels, and the same log lines again). -/
theorem applyActuators_idempotent (s : ActuatorState) (p : PinState) :
    applyActuators s (applyActuators s p).1 = applyActuators s p := rfl

/-- C9 counterexample: a request body that carries an "id" field overrides
the server-generated uuid, because the body is spread after the `id:` entry
in the object literal (server.js line 21-25). -/
theorem client_id_overrides_server_id :
    lookupLast
      (buildInfo "server-uuid" [("id", "client-chosen"), ("temperature", "31.0")]
        "2026-10-11T00:00:00Z") "id" = some "client-chosen" ∧
    "client-chosen" ≠ "server-uuid" := by decide

/-- C9 amended: created_at is always assigned server-side and cannot be
influenced by the request body; id is server-generated only when the body
does not carry an "id" field — a client-supplied id overrides it. -/
theorem postInfo_field_provenance (freshId createdAt : String)
    (body : List (String × String)) :
    lookupLast (buildInfo freshId body createdAt) "created_at" = some createdAt ∧
    (lookupLast body "id" = none →
      lookupLast (buildInfo freshId body createdAt) "id" = some freshId) ∧
    (∀ v, lookupLast body "id" = some v →
      lookupLast (buildInfo freshId body createdAt) "id" = some v) := by
  have hca : ("created_at" : String) ≠ "id" := by decide
  have key : ∀ k acc, lookupFrom acc (body ++ [("created_at", createdAt)]) k =
      (if ("created_at" : String) = k then some createdAt else lookupFrom acc body k) := by
    intro k acc
    simp [lookupFrom, List.foldl_append]
  refine ⟨?_, ?_, ?_⟩
  · show lookupFrom (if ("id" : String) = "created_at" then some freshId else none)
      (body ++ [("created_at", createdAt)]) "created_at" = some createdAt
    rw [key]
    simp
  · intro h
    show lookupFrom (if ("id" : String) = "id" then some freshId else none)
      (body ++ [("created_at", createdAt)]) "id" = some freshId
    rw [key, if_neg hca, if_pos rfl, lookupFrom_optOr, h]
    rfl
  · intro v h
    show lookupFrom (if ("id" : String) = "id" then some freshId else none)
      (body ++ [("created_at", createdAt)]) "id" = some v
    rw [key, if_neg hca, if_pos rfl, lookupFrom_optOr, h]
    rfl

/-- C9 amended witness: with a body that carries no id, the stored id is
the server-generated one and the stored created_at is the server time. -/
theorem postInfo_field_provenance_witness :
    lookupLast (buildInfo "srv-uuid" [("temperature", "31.0")] "T0") "id" = some "srv-uuid" :=
  (postInfo_field_provenance "srv-uuid" "T0" [("temperature", "31.0")]).2.1 (by decide)

/-- C10: on an insert failure POST /sensor-data does answer 500 with the
error message, but on a query failure GET /data crashes with a
ReferenceError — its catch clause binds the exception as `error` yet reads
`err.message` — so no 500 JSON response is produced there. -/
theorem get_data_error_path_crashes :
    postSensorDataHandler "srv" [("temperature", "31.0")] "T0"
        (fun _ => Except.error "insert failed") =
      HandlerResult.response 500 [("error", "insert failed")] ∧
    getDataHandler (Except.error "query failed") =
      HandlerResult.crashed "ReferenceError: err is not defined" ∧
    ∀ s b, getDataHandler (Except.error "query failed") ≠ HandlerResult.response s b := by
  have h2 : getDataHandler (Except.error "query failed") =
      HandlerResult.crashed "ReferenceError: err is not defined" := rfl
  refine ⟨rfl, h2, fun s b h => ?_⟩
  rw [h2] at h
  exact HandlerResult.noConfusion h
